import Mathlib

/-!
# Verification of the Rainative input/analysis controller and summarizer stub

Shallow embedding of `src/components/InputTabs.tsx` (the React view-state
controller) and of the `SummarizerService` backend stub
(`api/services/summarizer.py`, whose source is embedded alongside the
component file).

The controller is modelled as a pure state record plus handler functions.
The network interaction of `handleSubmit` is modelled by an explicit
`FetchOutcome` parameter describing how the single `fetch` call resolved;
the handler returns the resulting state together with the request it issued
(`none` when no HTTP request was made).  The UI event loop is modelled by an
`Event` type, an `enabled` guard describing which handlers are actually
reachable from the rendered view, and a `Reachable` predicate over states.
-/

/-! ## Data model (from the TypeScript interfaces) -/

/-- `interface TimelineItem { timestamp: string; summary: string; }` -/
structure TimelineItem where
  timestamp : String
  summary : String
deriving DecidableEq, Repr

/-- The `video_metadata` field of `AnalysisData`. -/
structure VideoMetadata where
  title : String
  duration : Nat
  thumbnail_url : String
  channel_name : String
  view_count : Option Nat
  published_at : Option String
deriving DecidableEq, Repr

/-- The `suggested_structure` field of `recommendations`. -/
structure SuggestedStructure where
  hook : String
  introduction : String
  main_content : String
  call_to_action : String
deriving DecidableEq, Repr

/-- The `recommendations` field of `AnalysisData`. -/
structure Recommendations where
  title : String
  target_audience : String
  content_style : String
  suggested_structure : SuggestedStructure
  pro_tips : List String
  estimated_viral_score : Nat
deriving DecidableEq, Repr

/-- `interface AnalysisData` from `InputTabs.tsx`. -/
structure AnalysisData where
  video_metadata : VideoMetadata
  summary : String
  timeline_summary : List TimelineItem
  viral_score : Nat
  viral_label : String
  viral_explanation : String
  recommendations : Recommendations
deriving DecidableEq, Repr

/-! ## Controller state (the `useState` hooks of `InputTabs`) -/

/-- The two input tabs: `'youtube' | 'document'`. -/
inductive Tab where
  | youtube
  | document
deriving DecidableEq, Repr

/-- The result sections: `'summarize' | 'viral' | 'recommendation'`. -/
inductive ResultSection where
  | summarize
  | viral
  | recommendation
deriving DecidableEq, Repr

/-- `interface SummaryState { isLoading; showSummary; type }`. -/
structure SummaryState where
  isLoading : Bool
  showSummary : Bool
  type : Option Tab
deriving DecidableEq, Repr

/-- The whole controller state: one field per `useState` hook of
`InputTabs`, in source order. -/
structure ControllerState where
  activeTab : Tab
  activeSection : ResultSection
  summaryState : SummaryState
  expandedTimeline : List Nat
  youtubeUrl : String
  analysisData : Option AnalysisData
  error : Option String
deriving Repr

/-- The initial values of the hooks: `'youtube'`, `'summarize'`,
`{isLoading: false, showSummary: false, type: null}`, `[0]`, `''`,
`null`, `null`. -/
def initState : ControllerState :=
  { activeTab := Tab.youtube
    activeSection := ResultSection.summarize
    summaryState := { isLoading := false, showSummary := false, type := none }
    expandedTimeline := [0]
    youtubeUrl := ""
    analysisData := none
    error := none }

/-! ## Handlers -/

/-- The JSON body of the `POST /api/analyze` request:
`{ youtube_url: youtubeUrl }`.  This is the whole body — the request
carries no other data (in particular no file data). -/
structure AnalyzeRequest where
  youtube_url : String
deriving DecidableEq, Repr

/-- How the single `fetch('http://localhost:8000/api/analyze', ...)` call of
`handleSubmit` resolved: the fetch itself threw (network failure), or it
returned with `response.ok` false (non-2xx status), or `response.json()`
failed to parse, or a 2xx response parsed as `AnalysisData`. -/
inductive FetchOutcome where
  | fetchFail
  | httpError (status : Nat)
  | parseFail
  | ok (data : AnalysisData)

/-- The generic failure message set in the `catch` block. -/
def analyzeFailMsg : String :=
  "Failed to analyze content. Please check your connection and try again."

/-- The validation message for an empty URL. -/
def emptyUrlMsg : String := "Please enter a YouTube URL"

/-- The guard `!youtubeUrl.trim()`: the URL trims to the empty string,
i.e. every character of it is whitespace (in particular, it is empty). -/
def isBlank (str : String) : Bool := str.data.all Char.isWhitespace

/-- `handleSubmit` from `InputTabs.tsx`, as a function of the state and
of the outcome of the one `fetch` call.  Returns the final state after the
handler has run to completion, paired with the request it issued
(`none` when it returned before fetching).

Source behaviour: if `activeTab === 'youtube' && !youtubeUrl.trim()`, set
the validation error and return.  Otherwise clear the error, enter the
loading state, and `fetch`; on a parsed 2xx response store the data and
show the summary; on any throw (network failure, non-2xx which is rethrown,
or JSON parse failure) set the generic error and return to the idle
summary-state `{false, false, null}`. -/
def handleSubmit (s : ControllerState) (outcome : FetchOutcome) :
    ControllerState × Option AnalyzeRequest :=
  if s.activeTab = Tab.youtube ∧ isBlank s.youtubeUrl = true then
    ({ s with error := some emptyUrlMsg }, none)
  else
    let req : AnalyzeRequest := { youtube_url := s.youtubeUrl }
    match outcome with
    | FetchOutcome.ok data =>
        ({ s with
            error := none
            analysisData := some data
            summaryState :=
              { isLoading := false, showSummary := true, type := some s.activeTab } },
         some req)
    | _ =>
        ({ s with
            error := some analyzeFailMsg
            summaryState :=
              { isLoading := false, showSummary := false, type := none } },
         some req)

/-- `handleBack` from `InputTabs.tsx`: reset `summaryState` to
`{false, false, null}`, `activeSection` to `'summarize'`, `analysisData`
and `error` to `null`.  (Note: it does not touch `expandedTimeline`.) -/
def handleBack (s : ControllerState) : ControllerState :=
  { s with
      summaryState := { isLoading := false, showSummary := false, type := none }
      activeSection := ResultSection.summarize
      analysisData := none
      error := none }

/-- `toggleTimeline` from `InputTabs.tsx`:
`prev.includes(index) ? prev.filter(i => i !== index) : [...prev, index]`. -/
def toggleTimeline (index : Nat) (prev : List Nat) : List Nat :=
  if prev.contains index then prev.filter (fun i => i != index) else prev ++ [index]

/-! ## The event loop and reachable states -/

/-- The user interactions wired to handlers in the rendered component. -/
inductive Event where
  | selectTab (t : Tab)
  | setUrl (u : String)
  | submit (outcome : FetchOutcome)
  | selectSection (sec : ResultSection)
  | back
  | toggle (i : Nat)

/-- The component renders the result view exactly when
`summaryState.showSummary && analysisData` (line 118 of the source). -/
def inResultView (s : ControllerState) : Bool :=
  s.summaryState.showSummary && s.analysisData.isSome

/-- Which events the rendered UI can deliver in state `s`:
tab buttons render only in the form view; the URL input renders in the
form view, when not loading and the youtube tab is active; the submit
buttons render in the form view and are disabled while loading; the
section selectors render only in the result view; the back button and the
timeline toggles render in the result view, inside the `'summarize'`
section. -/
def enabled (s : ControllerState) : Event → Bool
  | Event.selectTab _ => !inResultView s
  | Event.setUrl _ =>
      !inResultView s && !s.summaryState.isLoading && (s.activeTab == Tab.youtube)
  | Event.submit _ => !inResultView s && !s.summaryState.isLoading
  | Event.selectSection _ => inResultView s
  | Event.back => inResultView s && (s.activeSection == ResultSection.summarize)
  | Event.toggle _ => inResultView s && (s.activeSection == ResultSection.summarize)

/-- The state transformation performed by each event's handler. -/
def applyEvent (s : ControllerState) : Event → ControllerState
  | Event.selectTab t => { s with activeTab := t }
  | Event.setUrl u => { s with youtubeUrl := u }
  | Event.submit outcome => (handleSubmit s outcome).1
  | Event.selectSection sec => { s with activeSection := sec }
  | Event.back => handleBack s
  | Event.toggle i => { s with expandedTimeline := toggleTimeline i s.expandedTimeline }

/-- States the controller can actually be in: the initial state, closed
under enabled events. -/
inductive Reachable : ControllerState → Prop
  | init : Reachable initState
  | step {s : ControllerState} (e : Event) (hs : Reachable s)
      (he : enabled s e = true) : Reachable (applyEvent s e)

/-- Fold a list of events over a state. -/
def runEvents (s : ControllerState) (es : List Event) : ControllerState :=
  es.foldl applyEvent s

/-! ## The `SummarizerService` backend stub (`api/services/summarizer.py`)

Each service coroutine is a `try` body followed by
`except Exception as e: raise Exception(f"... : {e}")`.  The body performs
no real work (a log call and fixed data), so whether an internal exception
occurs is modelled by an oracle argument `internalError : Option String`
carrying the message `str(e)` of the hypothetical internal exception;
`none` is the normal run.  Raising is modelled by `Except.error`. -/

/-- The `mock_summary` triple-quoted literal of `generate_summary`. -/
def mock_summary : String :=
  "\n            This comprehensive guide explores the fundamental concepts of machine learning, covering supervised and \n            unsupervised learning techniques, model evaluation, and practical applications in real-world scenarios. \n            The video provides clear explanations of key algorithms like linear regression and decision trees, \n            while emphasizing best practices for avoiding common pitfalls like overfitting and underfitting.\n            "

/-- `SummarizerService.generate_summary(transcript)`: logs, builds the fixed
`mock_summary` paragraph and returns `mock_summary.strip()`; any internal
exception `e` is re-raised as `Exception(f"Failed to generate summary: {e}")`. -/
def generate_summary (transcript : String) (internalError : Option String) :
    Except String String :=
  match internalError with
  | some e => Except.error ("Failed to generate summary: " ++ e)
  | none => Except.ok mock_summary.trim

/-- The `mock_timeline` list of `generate_timeline_summary`: five fixed
`TimelineItem` entries. -/
def mock_timeline : List TimelineItem :=
  [ { timestamp := "00:00 - 01:00"
      summary := "Introduction to machine learning concepts and why they matter in today\x27s technology landscape." }
  , { timestamp := "01:00 - 02:30"
      summary := "Deep dive into supervised learning algorithms including linear regression and decision trees." }
  , { timestamp := "02:30 - 04:00"
      summary := "Practical examples of implementing basic ML models using Python and popular libraries." }
  , { timestamp := "04:00 - 05:15"
      summary := "Discussion of unsupervised learning techniques and clustering algorithms." }
  , { timestamp := "05:15 - 06:30"
      summary := "Best practices for model evaluation, cross-validation, and avoiding overfitting." } ]

/-- `SummarizerService.generate_timeline_summary(transcript, duration_seconds)`:
logs and returns the fixed `mock_timeline`; any internal exception `e` is
re-raised as `Exception(f"Failed to generate timeline summary: {e}")`. -/
def generate_timeline_summary (transcript : String) (duration_seconds : Int)
    (internalError : Option String) : Except String (List TimelineItem) :=
  match internalError with
  | some e => Except.error ("Failed to generate timeline summary: " ++ e)
  | none => Except.ok mock_timeline

/-! ## Concrete sample data for witnesses and counterexamples -/

/-- A concrete parsed `AnalysisData` value with the stub service's
five-item timeline, used to instantiate hypotheses at concrete inputs. -/
def sampleData : AnalysisData :=
  { video_metadata :=
      { title := "Machine Learning Basics"
        duration := 390
        thumbnail_url := "https://img.example/thumb.jpg"
        channel_name := "Example Channel"
        view_count := some 1000
        published_at := none }
    summary := mock_summary.trim
    timeline_summary := mock_timeline
    viral_score := 75
    viral_label := "High Potential"
    viral_explanation := "Strong hook and clear structure."
    recommendations :=
      { title := "A similar video"
        target_audience := "Beginners"
        content_style := "Tutorial"
        suggested_structure :=
          { hook := "Ask a question"
            introduction := "State the goal"
            main_content := "Walk through examples"
            call_to_action := "Subscribe" }
        pro_tips := ["Keep it short"]
        estimated_viral_score := 80 } }

/-- The state right after typing a URL into the fresh form. -/
def demoState : ControllerState :=
  applyEvent initState (Event.setUrl "https://youtube.com/watch?v=abc")

/-! ## Controller invariants -/

/-- Invariant of reachable controller states: whenever `showSummary` is
set, a parsed result is stored; and outside the result view the selected
result section is the default `'summarize'`. -/
def CtrlInv (s : ControllerState) : Prop :=
  (s.summaryState.showSummary = true → s.analysisData.isSome = true) ∧
  (s.summaryState.showSummary = false → s.activeSection = ResultSection.summarize)

theorem initState_inv : CtrlInv initState := by
  constructor <;> intro h <;> simp [initState] at h ⊢

theorem inv_preserved {s : ControllerState} (e : Event)
    (hinv : CtrlInv s) (he : enabled s e = true) : CtrlInv (applyEvent s e) := by
  obtain ⟨h1, h2⟩ := hinv
  cases e with
  | selectTab t => exact ⟨h1, h2⟩
  | setUrl u => exact ⟨h1, h2⟩
  | submit outcome =>
      simp only [applyEvent, handleSubmit]
      by_cases hv : s.activeTab = Tab.youtube ∧ isBlank s.youtubeUrl = true
      · simp only [if_pos hv]
        exact ⟨h1, h2⟩
      · simp only [if_neg hv]
        have hform : inResultView s = false := by
          simp only [enabled, Bool.and_eq_true, Bool.not_eq_true'] at he
          exact he.1
        have hss : s.summaryState.showSummary = false := by
          by_contra hcon
          rw [Bool.not_eq_false] at hcon
          have := h1 hcon
          simp [inResultView, hcon, this] at hform
        cases outcome with
        | ok data => exact ⟨fun _ => rfl, fun h => absurd h (by simp)⟩
        | fetchFail => exact ⟨fun h => absurd h (by simp), fun _ => h2 hss⟩
        | httpError n => exact ⟨fun h => absurd h (by simp), fun _ => h2 hss⟩
        | parseFail => exact ⟨fun h => absurd h (by simp), fun _ => h2 hss⟩
  | selectSection sec =>
      refine ⟨h1, fun h => ?_⟩
      simp only [enabled, inResultView, Bool.and_eq_true] at he
      simp only [applyEvent] at h
      rw [he.1] at h
      exact absurd h (by simp)
  | back => exact ⟨fun h => absurd h (by simp [applyEvent, handleBack] at h ⊢), fun _ => rfl⟩
  | toggle i => exact ⟨h1, h2⟩

theorem reachable_inv {s : ControllerState} (h : Reachable s) : CtrlInv s := by
  induction h with
  | init => exact initState_inv
  | step e hs he ih => exact inv_preserved e ih he

/-- In any reachable state in which the submit button is enabled (the form
view is rendered and the controller is not loading), `showSummary` is
false and the selected section is the default. -/
theorem reachable_submit_idle {s : ControllerState} {outcome : FetchOutcome}
    (hr : Reachable s) (he : enabled s (Event.submit outcome) = true) :
    s.summaryState.showSummary = false ∧
      s.activeSection = ResultSection.summarize := by
  obtain ⟨h1, h2⟩ := reachable_inv hr
  simp only [enabled, Bool.and_eq_true, Bool.not_eq_true'] at he
  have hss : s.summaryState.showSummary = false := by
    by_contra hcon
    rw [Bool.not_eq_false] at hcon
    have := h1 hcon
    simp [inResultView, hcon, this] at he
  exact ⟨hss, h2 hss⟩

/-! ## Helper lemmas -/

/-- Membership after one toggle: the toggled index flips, everything else
is unchanged. -/
theorem mem_toggleTimeline (i j : Nat) (prev : List Nat) :
    (toggleTimeline i prev).contains j =
      if j = i then !prev.contains i else prev.contains j := by
  simp only [toggleTimeline]
  by_cases hi : prev.contains i = true
  · rw [if_pos hi, hi]
    by_cases hj : j = i
    · subst hj
      simp [List.elem_iff, List.mem_filter]
    · simp [List.elem_iff, List.mem_filter, hj, if_neg hj]
  · rw [if_neg hi, Bool.not_eq_true] at *
    rw [hi]
    by_cases hj : j = i
    · subst hj
      simp [List.elem_iff]
    · simp [List.elem_iff, hj, if_neg hj]

/-- `handleSubmit` never changes `expandedTimeline`. -/
theorem handleSubmit_expandedTimeline (s : ControllerState) (outcome : FetchOutcome) :
    ((handleSubmit s outcome).1).expandedTimeline = s.expandedTimeline := by
  unfold handleSubmit
  split
  · rfl
  · cases outcome <;> rfl

/-! ## Claim theorems -/

/-- C1: in any reachable state where the submit control is enabled, if the
active tab is `'youtube'` and the URL field is empty or whitespace-only
(`isBlank youtubeUrl`), then `handleSubmit` issues no HTTP request, sets
the error "Please enter a YouTube URL", and leaves the state in Idle
(`isLoading = false`, `showSummary = false`). -/
theorem submit_empty_url_blocks (s : ControllerState) (outcome : FetchOutcome)
    (hr : Reachable s) (he : enabled s (Event.submit outcome) = true)
    (htab : s.activeTab = Tab.youtube) (hurl : isBlank s.youtubeUrl = true) :
    (handleSubmit s outcome).2 = none ∧
    (handleSubmit s outcome).1.error = some "Please enter a YouTube URL" ∧
    (handleSubmit s outcome).1.summaryState.isLoading = false ∧
    (handleSubmit s outcome).1.summaryState.showSummary = false := by
  obtain ⟨hss, -⟩ := reachable_submit_idle hr he
  have hload : s.summaryState.isLoading = false := by
    simp only [enabled, Bool.and_eq_true, Bool.not_eq_true'] at he
    exact he.2
  unfold handleSubmit
  rw [if_pos (And.intro htab hurl)]
  exact ⟨rfl, rfl, hload, hss⟩

/-- C1 witness: the initial state (youtube tab, empty URL). -/
theorem submit_empty_url_blocks_witness :
    (handleSubmit initState FetchOutcome.fetchFail).2 = none ∧
    (handleSubmit initState FetchOutcome.fetchFail).1.error =
      some "Please enter a YouTube URL" ∧
    (handleSubmit initState FetchOutcome.fetchFail).1.summaryState.isLoading = false ∧
    (handleSubmit initState FetchOutcome.fetchFail).1.summaryState.showSummary = false :=
  submit_empty_url_blocks initState FetchOutcome.fetchFail Reachable.init rfl rfl rfl

/-- C2: when the fetch fails or the response is non-2xx (`response.ok`
false), and the run actually fetched (the validation guard did not fire),
`handleSubmit` sets the single generic error string, ends with
`isLoading = false` and `showSummary = false` (back to the Idle input
form), and stores no analysis result (`analysisData` is unchanged). -/
theorem submit_failure_generic_error (s : ControllerState) (outcome : FetchOutcome)
    (hfail : outcome = FetchOutcome.fetchFail ∨ ∃ n, outcome = FetchOutcome.httpError n)
    (hval : ¬(s.activeTab = Tab.youtube ∧ isBlank s.youtubeUrl = true)) :
    (handleSubmit s outcome).1.error =
      some "Failed to analyze content. Please check your connection and try again." ∧
    (handleSubmit s outcome).1.summaryState.isLoading = false ∧
    (handleSubmit s outcome).1.summaryState.showSummary = false ∧
    (handleSubmit s outcome).1.analysisData = s.analysisData := by
  rcases hfail with h | ⟨n, h⟩ <;> subst h <;> unfold handleSubmit <;>
    rw [if_neg hval] <;> exact ⟨rfl, rfl, rfl, rfl⟩

/-- C2 witness: a 500 response on a state with a non-empty URL. -/
theorem submit_failure_generic_error_witness :
    (handleSubmit demoState (FetchOutcome.httpError 500)).1.error =
      some "Failed to analyze content. Please check your connection and try again." ∧
    (handleSubmit demoState (FetchOutcome.httpError 500)).1.summaryState.isLoading = false ∧
    (handleSubmit demoState (FetchOutcome.httpError 500)).1.summaryState.showSummary = false ∧
    (handleSubmit demoState (FetchOutcome.httpError 500)).1.analysisData =
      demoState.analysisData :=
  submit_failure_generic_error demoState (FetchOutcome.httpError 500)
    (Or.inr ⟨500, rfl⟩) (by decide)

/-- C3: in any reachable state where the submit control is enabled, a run
of `handleSubmit` whose response is 2xx and parses as `AnalysisData` (and
which actually fetched) ends with `isLoading = false`,
`showSummary = true`, `analysisData` set to the parsed value, and the
selected result section at that moment is exactly `'summarize'`. -/
theorem submit_ok_enters_result (s : ControllerState) (d : AnalysisData)
    (hr : Reachable s)
    (he : enabled s (Event.submit (FetchOutcome.ok d)) = true)
    (hval : ¬(s.activeTab = Tab.youtube ∧ isBlank s.youtubeUrl = true)) :
    (handleSubmit s (FetchOutcome.ok d)).1.summaryState.isLoading = false ∧
    (handleSubmit s (FetchOutcome.ok d)).1.summaryState.showSummary = true ∧
    (handleSubmit s (FetchOutcome.ok d)).1.analysisData = some d ∧
    (handleSubmit s (FetchOutcome.ok d)).1.activeSection = ResultSection.summarize := by
  obtain ⟨-, hsec⟩ := reachable_submit_idle hr he
  unfold handleSubmit
  rw [if_neg hval]
  exact ⟨rfl, rfl, rfl, hsec⟩

/-- C3 witness: the fresh form with a URL typed in, receiving a parsed
2xx response. -/
theorem submit_ok_enters_result_witness :
    (handleSubmit demoState (FetchOutcome.ok sampleData)).1.summaryState.isLoading = false ∧
    (handleSubmit demoState (FetchOutcome.ok sampleData)).1.summaryState.showSummary = true ∧
    (handleSubmit demoState (FetchOutcome.ok sampleData)).1.analysisData = some sampleData ∧
    (handleSubmit demoState (FetchOutcome.ok sampleData)).1.activeSection =
      ResultSection.summarize :=
  submit_ok_enters_result demoState sampleData
    (Reachable.step (Event.setUrl "https://youtube.com/watch?v=abc") Reachable.init rfl)
    rfl (by decide)

/-- C4: `handleBack` always yields an Idle state with no residual result
data: `isLoading = false`, `showSummary = false`, `type = none`,
`analysisData = none`, `error = none`, and `activeSection` reset to
`'summarize'`, regardless of the prior state. -/
theorem handleBack_resets (s : ControllerState) :
    (handleBack s).summaryState.isLoading = false ∧
    (handleBack s).summaryState.showSummary = false ∧
    (handleBack s).summaryState.type = none ∧
    (handleBack s).analysisData = none ∧
    (handleBack s).error = none ∧
    (handleBack s).activeSection = ResultSection.summarize :=
  ⟨rfl, rfl, rfl, rfl, rfl, rfl⟩

/-- C5: toggling a timeline entry twice restores the membership of every
index to its prior value, and toggling entry `i` never changes whether a
different entry `j` is expanded. -/
theorem toggleTimeline_double_and_independent (prev : List Nat) (i j : Nat) :
    (toggleTimeline i (toggleTimeline i prev)).contains j = prev.contains j ∧
    (j ≠ i → (toggleTimeline i prev).contains j = prev.contains j) := by
  constructor
  · rw [mem_toggleTimeline]
    by_cases hj : j = i
    · subst hj
      rw [if_pos rfl, mem_toggleTimeline, if_pos rfl, Bool.not_not]
    · rw [if_neg hj, mem_toggleTimeline, if_neg hj]
  · intro hj
    rw [mem_toggleTimeline, if_neg hj]

/-- C5 witness: double-toggling entry 1 on the default set `[0]` leaves
membership of 0 and of 1 unchanged, and a single toggle of 1 leaves 0
unchanged. -/
theorem toggleTimeline_double_and_independent_witness :
    ((toggleTimeline 1 (toggleTimeline 1 [0])).contains 0 = ([0] : List Nat).contains 0 ∧
      (toggleTimeline 1 [0]).contains 0 = ([0] : List Nat).contains 0) ∧
    (toggleTimeline 1 (toggleTimeline 1 [0])).contains 1 = ([0] : List Nat).contains 1 :=
  ⟨⟨(toggleTimeline_double_and_independent [0] 1 0).1,
    (toggleTimeline_double_and_independent [0] 1 0).2 (by decide)⟩,
   (toggleTimeline_double_and_independent [0] 1 1).1⟩

/-- The scenario of a second analysis after `handleBack`: type a URL,
analyze successfully, expand timeline entry 1, go back, analyze again. -/
def secondAnalysisState : ControllerState :=
  runEvents initState
    [ Event.setUrl "https://youtube.com/watch?v=abc"
    , Event.submit (FetchOutcome.ok sampleData)
    , Event.toggle 1
    , Event.back
    , Event.submit (FetchOutcome.ok sampleData) ]

/-- C6 counterexample: the controller can enter the Result view with more
than the first timeline entry expanded.  After a successful analysis, a
toggle of entry 1, `handleBack`, and a second successful analysis, the
controller is in the Result view and the expanded set is `[0, 1]` — entry
1 renders expanded, refuting the claim that every entry into Result has
exactly the first entry expanded. -/
theorem second_result_entry_keeps_expanded :
    Reachable secondAnalysisState ∧
    inResultView secondAnalysisState = true ∧
    secondAnalysisState.expandedTimeline = [0, 1] ∧
    secondAnalysisState.expandedTimeline.contains 1 = true := by
  refine ⟨?_, rfl, rfl, rfl⟩
  have h0 : Reachable initState := Reachable.init
  have h1 := Reachable.step (Event.setUrl "https://youtube.com/watch?v=abc") h0 rfl
  have h2 := Reachable.step (Event.submit (FetchOutcome.ok sampleData)) h1 rfl
  have h3 := Reachable.step (Event.toggle 1) h2 rfl
  have h4 := Reachable.step Event.back h3 rfl
  exact Reachable.step (Event.submit (FetchOutcome.ok sampleData)) h4 rfl

/-- C6 amended: the expand/collapse set defaults to exactly the first
timeline entry (`[0]` in the initial state), so the first entry into the
Result view renders entry 0 expanded and all others collapsed; but neither
`handleSubmit` nor `handleBack` ever modifies the expanded set, so a later
entry into Result (e.g. a second analysis after `handleBack`) keeps
whatever set the user last left, rather than resetting to the first
entry. -/
theorem expanded_default_and_never_reset :
    initState.expandedTimeline = [0] ∧
    (∀ (s : ControllerState) (outcome : FetchOutcome),
      ((handleSubmit s outcome).1).expandedTimeline = s.expandedTimeline) ∧
    (∀ s : ControllerState, (handleBack s).expandedTimeline = s.expandedTimeline) :=
  ⟨rfl, handleSubmit_expandedTimeline, fun _ => rfl⟩

/-- C7: `generate_summary` ignores its transcript argument and returns the
same fixed paragraph — the hardcoded machine-learning synopsis stripped of
surrounding whitespace — on every normal (exception-free) run. -/
theorem generate_summary_constant (t1 t2 : String) :
    generate_summary t1 none = generate_summary t2 none ∧
    generate_summary t1 none = Except.ok mock_summary.trim :=
  ⟨rfl, rfl⟩

/-- C8: `generate_timeline_summary` ignores both its transcript and its
duration argument and returns, on every normal run, the same ordered list
of exactly five fixed `TimelineItem` entries with timestamps
"00:00 - 01:00", "01:00 - 02:30", "02:30 - 04:00", "04:00 - 05:15",
"05:15 - 06:30" in that order. -/
theorem generate_timeline_summary_constant (t1 t2 : String) (d1 d2 : Int) :
    generate_timeline_summary t1 d1 none = generate_timeline_summary t2 d2 none ∧
    generate_timeline_summary t1 d1 none = Except.ok mock_timeline ∧
    mock_timeline.length = 5 ∧
    mock_timeline.map TimelineItem.timestamp =
      ["00:00 - 01:00", "01:00 - 02:30", "02:30 - 04:00", "04:00 - 05:15",
       "05:15 - 06:30"] :=
  ⟨rfl, rfl, rfl, rfl⟩

/-- C9: an internal exception with message `e` inside `generate_summary`
(resp. `generate_timeline_summary`) is re-raised in exactly the wrapped
form "Failed to generate summary: " ++ e (resp.
"Failed to generate timeline summary: " ++ e) — never as the unwrapped
original. -/
theorem service_errors_wrapped (t e : String) (d : Int) :
    generate_summary t (some e) =
      Except.error ("Failed to generate summary: " ++ e) ∧
    generate_timeline_summary t d (some e) =
      Except.error ("Failed to generate timeline summary: " ++ e) :=
  ⟨rfl, rfl⟩

/-- C10: with the `'document'` tab active, `handleSubmit` performs no
non-empty check: for every URL-field value (including the empty string) it
issues the POST with body `{ youtube_url: youtubeUrl }` — a body that by
construction contains no file data. -/
theorem submit_document_always_requests (s : ControllerState)
    (outcome : FetchOutcome) (hdoc : s.activeTab = Tab.document) :
    (handleSubmit s outcome).2 = some { youtube_url := s.youtubeUrl } := by
  have hval : ¬(s.activeTab = Tab.youtube ∧ isBlank s.youtubeUrl = true) := by
    rintro ⟨h, -⟩
    rw [hdoc] at h
    exact Tab.noConfusion h
  unfold handleSubmit
  rw [if_neg hval]
  cases outcome <;> rfl

/-- C10 witness: the document tab with an empty URL field still issues
the request, with `youtube_url` the empty string. -/
theorem submit_document_always_requests_witness :
    (handleSubmit { initState with activeTab := Tab.document }
        FetchOutcome.fetchFail).2 = some { youtube_url := "" } :=
  submit_document_always_requests { initState with activeTab := Tab.document }
    FetchOutcome.fetchFail rfl
